import Mathlib

/-!
Shallow embedding of the PCSX-Redux GPU logger, translated from
`src/core/gpulogger.cc` and `src/core/gpulogger_types.h`.

The GL heatmap side (shaders, FBO plumbing) is an external rendering sink and
is out of scope; the geometry callbacks (`getVertices`, `addLine`) are modelled
as pure functions returning the list of emitted triangles, in emission order.
-/

/-- `c_maxLoggedWords` (gpulogger.cc line 35): cap on logged raw command words. -/
def c_maxLoggedWords : Nat := 1024

/-- `OpenGL::ivec2`: integer 2-vector handed to the triangle sink. -/
structure IVec2 where
  x : Int
  y : Int
  deriving DecidableEq, Repr

/-- One triangle emitted through the `AddTri` callback: three vertices, in
the order the C++ code passes them to `add(v1, v2, v3)`. -/
structure Tri where
  v1 : IVec2
  v2 : IVec2
  v3 : IVec2
  deriving DecidableEq, Repr

/-- Twice the (unsigned) area of a triangle, by the shoelace formula.
Used to compare emitted geometry against the pixel counts in the stats. -/
def area2 (t : Tri) : Nat :=
  ((t.v2.x - t.v1.x) * (t.v3.y - t.v1.y) - (t.v3.x - t.v1.x) * (t.v2.y - t.v1.y)).natAbs

/-- Total doubled area of a list of emitted triangles. -/
def triAreaSum (l : List Tri) : Nat := (l.map area2).sum

/-- `GPU::Logged::PixelOp` (gpu.h, used by `getVertices`). -/
inductive PixelOp where
  | WRITE
  | READ
  deriving DecidableEq, Repr

/-- `GPU::GPUStats`: the aggregate statistics accumulator. -/
structure GPUStats where
  triangles : Nat := 0
  texturedTriangles : Nat := 0
  rectangles : Nat := 0
  sprites : Nat := 0
  pixelWrites : Nat := 0
  pixelReads : Nat := 0
  texelReads : Nat := 0
  deriving DecidableEq, Repr

/-- Raw (pre-clip) rectangle of a `FastFill` / `BlitRamVram` / `BlitVramRam`. -/
structure RawRect where
  x : Nat
  y : Nat
  w : Nat
  h : Nat
  deriving DecidableEq, Repr

/-- Raw (pre-clip) parameters of a `BlitVramVram`. -/
structure RawBlitVramVram where
  sX : Nat
  sY : Nat
  dX : Nat
  dY : Nat
  w : Nat
  h : Nat
  deriving DecidableEq, Repr

/-- `GPU::FastFill` geometric fields. The field declarations live in gpu.h
(outside the excerpt); coordinates and extents are modelled as naturals, per
the spec's 1024x512 VRAM rectangle model. Methods below are from gpulogger.cc. -/
structure FastFill where
  x : Nat
  y : Nat
  w : Nat
  h : Nat
  color : Nat
  raw : RawRect
  clipped : Bool
  deriving DecidableEq, Repr

/-- `GPU::BlitVramVram` geometric fields (source, destination, extent). -/
structure BlitVramVram where
  sX : Nat
  sY : Nat
  dX : Nat
  dY : Nat
  w : Nat
  h : Nat
  raw : RawBlitVramVram
  clipped : Bool
  deriving DecidableEq, Repr

/-- `GPU::BlitRamVram` geometric fields plus the uploaded byte payload. -/
structure BlitRamVram where
  x : Nat
  y : Nat
  w : Nat
  h : Nat
  raw : RawRect
  clipped : Bool
  data : List Nat
  deriving DecidableEq, Repr

/-- `GPU::BlitVramRam` geometric fields. -/
structure BlitVramRam where
  x : Nat
  y : Nat
  w : Nat
  h : Nat
  raw : RawRect
  clipped : Bool
  deriving DecidableEq, Repr

/-- `FastFill::cumulateStats` (gpulogger.cc line 730). -/
def FastFill.cumulateStats (p : FastFill) (stats : GPUStats) : GPUStats :=
  { stats with pixelWrites := stats.pixelWrites + p.h * p.w }

/-- `BlitVramVram::cumulateStats` (gpulogger.cc lines 731-735). -/
def BlitVramVram.cumulateStats (p : BlitVramVram) (stats : GPUStats) : GPUStats :=
  let s := p.h * p.w
  { stats with pixelWrites := stats.pixelWrites + s, pixelReads := stats.pixelReads + s }

/-- `BlitRamVram::cumulateStats` (gpulogger.cc line 736). -/
def BlitRamVram.cumulateStats (p : BlitRamVram) (stats : GPUStats) : GPUStats :=
  { stats with pixelWrites := stats.pixelWrites + p.h * p.w }

/-- `BlitVramRam::cumulateStats` (gpulogger.cc line 737). -/
def BlitVramRam.cumulateStats (p : BlitVramRam) (stats : GPUStats) : GPUStats :=
  { stats with pixelReads := stats.pixelReads + p.h * p.w }

/-- `FastFill::getVertices` (gpulogger.cc lines 739-743). -/
def FastFill.getVertices (p : FastFill) (op : PixelOp) : List Tri :=
  if op = PixelOp.READ then []
  else
    [⟨⟨(p.x : Int), (p.y : Int)⟩, ⟨(p.x + p.w : Nat), (p.y : Int)⟩,
      ⟨(p.x + p.w : Nat), (p.y + p.h : Nat)⟩⟩,
     ⟨⟨(p.x + p.w : Nat), (p.y + p.h : Nat)⟩, ⟨(p.x : Int), (p.y + p.h : Nat)⟩,
      ⟨(p.x : Int), (p.y : Int)⟩⟩]

/-- `BlitVramVram::getVertices` (gpulogger.cc lines 744-752). -/
def BlitVramVram.getVertices (p : BlitVramVram) (op : PixelOp) : List Tri :=
  match op with
  | PixelOp.READ =>
    [⟨⟨(p.sX : Int), (p.sY : Int)⟩, ⟨(p.sX + p.w : Nat), (p.sY : Int)⟩,
      ⟨(p.sX + p.w : Nat), (p.sY + p.h : Nat)⟩⟩,
     ⟨⟨(p.sX + p.w : Nat), (p.sY + p.h : Nat)⟩, ⟨(p.sX : Int), (p.sY + p.h : Nat)⟩,
      ⟨(p.sX : Int), (p.sY : Int)⟩⟩]
  | PixelOp.WRITE =>
    [⟨⟨(p.dX : Int), (p.dY : Int)⟩, ⟨(p.dX + p.w : Nat), (p.dY : Int)⟩,
      ⟨(p.dX + p.w : Nat), (p.dY + p.h : Nat)⟩⟩,
     ⟨⟨(p.dX + p.w : Nat), (p.dY + p.h : Nat)⟩, ⟨(p.dX : Int), (p.dY + p.h : Nat)⟩,
      ⟨(p.dX : Int), (p.dY : Int)⟩⟩]

/-- `BlitRamVram::getVertices` (gpulogger.cc lines 753-757). -/
def BlitRamVram.getVertices (p : BlitRamVram) (op : PixelOp) : List Tri :=
  if op = PixelOp.READ then []
  else
    [⟨⟨(p.x : Int), (p.y : Int)⟩, ⟨(p.x + p.w : Nat), (p.y : Int)⟩,
      ⟨(p.x + p.w : Nat), (p.y + p.h : Nat)⟩⟩,
     ⟨⟨(p.x + p.w : Nat), (p.y + p.h : Nat)⟩, ⟨(p.x : Int), (p.y + p.h : Nat)⟩,
      ⟨(p.x : Int), (p.y : Int)⟩⟩]

/-- `BlitVramRam::getVertices` (gpulogger.cc lines 758-762). -/
def BlitVramRam.getVertices (p : BlitVramRam) (op : PixelOp) : List Tri :=
  if op = PixelOp.WRITE then []
  else
    [⟨⟨(p.x : Int), (p.y : Int)⟩, ⟨(p.x + p.w : Nat), (p.y : Int)⟩,
      ⟨(p.x + p.w : Nat), (p.y + p.h : Nat)⟩⟩,
     ⟨⟨(p.x + p.w : Nat), (p.y + p.h : Nat)⟩, ⟨(p.x : Int), (p.y + p.h : Nat)⟩,
      ⟨(p.x : Int), (p.y : Int)⟩⟩]

/-- `GPU::Logged::addLine` (gpulogger.cc lines 894-924): decomposes a line
segment into the two triangles of a 1-pixel-wide quad. The C++ mutates local
copies of the endpoint coordinates; the mutation is modelled by the primed
variables. -/
def addLine (x1 y1 x2 y2 : Int) : List Tri :=
  let dx := x2 - x1
  let dy := y2 - y1
  let absDx := dx.natAbs
  let absDy := dy.natAbs
  if dx = 0 ∧ dy = 0 then
    [⟨⟨x1, y1⟩, ⟨x1 + 1, y1⟩, ⟨x1 + 1, y1 + 1⟩⟩,
     ⟨⟨x1 + 1, y1 + 1⟩, ⟨x1, y1 + 1⟩, ⟨x1, y1⟩⟩]
  else if absDx > absDy then
    let xOffset : Int := 0
    let yOffset : Int := 1
    let x1' := if dx > 0 then x1 else x1 + 1
    let x2' := if dx > 0 then x2 + 1 else x2
    [⟨⟨x1', y1⟩, ⟨x2', y2⟩, ⟨x2' + xOffset, y2 + yOffset⟩⟩,
     ⟨⟨x2' + xOffset, y2 + yOffset⟩, ⟨x1' + xOffset, y1 + yOffset⟩, ⟨x1', y1⟩⟩]
  else
    let xOffset : Int := 1
    let yOffset : Int := 0
    let y1' := if dy > 0 then y1 else y1 + 1
    let y2' := if dy > 0 then y2 + 1 else y2
    [⟨⟨x1, y1'⟩, ⟨x2, y2'⟩, ⟨x2 + xOffset, y2' + yOffset⟩⟩,
     ⟨⟨x2 + xOffset, y2' + yOffset⟩, ⟨x1 + xOffset, y1' + yOffset⟩, ⟨x1, y1'⟩⟩]

/-- `GTEState::Command` (gpulogger_types.h lines 28-52). -/
inductive GTECommand where
  | Unknown
  | RTPT
  | RTPS
  | NCLIP
  | OP
  | DPCS
  | INTPL
  | MVMVA
  | NCDS
  | CDP
  | NCDT
  | NCCS
  | CC
  | NCS
  | NCT
  | SQR
  | DCPL
  | DPCT
  | AVSZ3
  | AVSZ4
  | GPL
  | GPF
  | NCCT
  deriving DecidableEq, Repr

/-- `GTEFetchContext` (gpulogger_types.h lines 13-21). -/
structure GTEFetchContext where
  pc : Nat := 0
  address : Nat := 0
  baseRegister : Nat := 0
  baseValue : Nat := 0
  offset : Int := 0
  targetRegister : Nat := 0
  value : Nat := 0
  deriving DecidableEq, Repr

/-- `GTELogMetadata` (gpulogger_types.h lines 23-25). -/
structure GTELogMetadata where
  vertexFetches : List GTEFetchContext := []
  deriving DecidableEq, Repr

/-- `GTEState::Snapshot` (gpulogger_types.h lines 54-70). Fixed-size arrays are
modelled as functions out of `Fin`; machine integers as `Int`/`Nat`. -/
structure Snapshot where
  vertices : Fin 3 → Fin 3 → Int := fun _ _ => 0
  screenCoords : Fin 3 → Fin 2 → Int := fun _ _ => 0
  rotationMatrix : Fin 3 → Fin 3 → Int := fun _ _ => 0
  lightMatrix : Fin 3 → Fin 3 → Int := fun _ _ => 0
  colorMatrix : Fin 3 → Fin 3 → Int := fun _ _ => 0
  translation : Fin 3 → Int := fun _ => 0
  dataRegisters : Fin 32 → Nat := fun _ => 0
  controlRegisters : Fin 32 → Nat := fun _ => 0
  offsetX : Int := 0
  offsetY : Int := 0
  projectionPlaneDistance : Int := 0
  depthQueueA : Int := 0
  depthQueueB : Int := 0
  depthScaleFactor3 : Int := 0
  depthScaleFactor4 : Int := 0

/-- `GTEState` (gpulogger_types.h lines 72-77). -/
structure GTEState where
  command : GTECommand := GTECommand.Unknown
  pc : Nat := 0
  input : Snapshot := {}
  output : Snapshot := {}
  metadata : GTELogMetadata := {}

/-- `GPU::Logged::Origin` (gpu.h; values per `originToString`). -/
inductive Origin where
  | DATAWRITE
  | CTRLWRITE
  | DIRECT_DMA
  | CHAIN_DMA
  | REPLAY
  deriving DecidableEq, Repr

/-- The loggable primitive variants that the claims quantify over.  The
remaining control/state variants of `GPU::Logged` play no role in any claim
and are not part of this development's command universe. -/
inductive Variant where
  | fastFill (p : FastFill)
  | blitVramVram (p : BlitVramVram)
  | blitRamVram (p : BlitRamVram)
  | blitVramRam (p : BlitVramRam)

/-- Virtual dispatch of `cumulateStats` over the variants. -/
def Variant.cumulateStats : Variant → GPUStats → GPUStats
  | Variant.fastFill p, stats => p.cumulateStats stats
  | Variant.blitVramVram p, stats => p.cumulateStats stats
  | Variant.blitRamVram p, stats => p.cumulateStats stats
  | Variant.blitVramRam p, stats => p.cumulateStats stats

/-- `GPU::Logged` common fields (gpu.h), as finalized by
`GPULogger::addNodeInternal`: origin, byte length, source address, raw words,
truncation flag, attached GTE snapshot, pc, frame, plus the two UI flags. -/
structure Logged where
  origin : Origin := Origin.DATAWRITE
  length : Nat := 0
  sourceAddr : Nat := 0
  words : List Nat := []
  wordsTruncated : Bool := false
  gteState : Option GTEState := none
  pc : Nat := 0
  frame : Nat := 0
  enabled : Bool := true
  highlight : Bool := false
  variant : Variant

/-- `GPULogger` mutable state (gpulogger.h): the command list (oldest first),
the vsync frame counter, the per-frame GTE trace, the most recent GTE
snapshot and its frame, the state-logging enable flag, and the acquired VRAM
baseline (an opaque 1024x512 16-bit buffer, modelled as its word list). -/
structure GPULogger where
  list : List Logged := []
  frameCounter : Nat := 0
  gteFrameLog : List GTEState := []
  lastGteState : Option GTEState := none
  lastGteFrame : Nat := 0
  enabled : Bool := false
  vram : Option (List Nat) := none

/-- `GPULogger::clearFrameLog` (gpulogger.cc lines 82-87). -/
def GPULogger.clearFrameLog (st : GPULogger) : GPULogger :=
  { st with list := [], gteFrameLog := [], lastGteState := none,
            lastGteFrame := st.frameCounter }

/-- `GPULogger::recordGteState` (gpulogger.cc lines 89-99). -/
def GPULogger.recordGteState (st : GPULogger) (state : GTEState) : GPULogger :=
  let st :=
    if st.lastGteFrame ≠ st.frameCounter then
      { st with lastGteFrame := st.frameCounter, gteFrameLog := [], lastGteState := none }
    else st
  let st := { st with lastGteState := some state }
  if st.enabled then { st with gteFrameLog := st.gteFrameLog ++ [state] } else st

/-- The eviction loop of `addNodeInternal` (gpulogger.cc lines 333-336):
repeatedly deletes the list head while its frame differs from `frame`.
Returns the surviving list and the `gotNewFrame` flag. -/
def evict (frame : Nat) : List Logged → List Logged × Bool
  | [] => ([], false)
  | e :: rest =>
    if e.frame = frame then (e :: rest, false)
    else ((evict frame rest).1, true)

/-- `GPULogger::startNewFrame` (gpulogger.cc lines 467-472). The VRAM
baseline acquired from the emulator is an external input, passed in as
`acquired`. -/
def GPULogger.startNewFrame (st : GPULogger) (acquired : List Nat) : GPULogger :=
  { st with vram := some acquired, gteFrameLog := [], lastGteState := none,
            lastGteFrame := st.frameCounter }

/-- Word finalization of `addNodeInternal` (gpulogger.cc line 342): an empty
word list falls back to the single triggering value. -/
def wordsWithFallback (words : List Nat) (value : Nat) : List Nat :=
  if words.isEmpty then [value] else words

/-- Word finalization of `addNodeInternal` (gpulogger.cc lines 344-348):
words beyond `c_maxLoggedWords` are dropped. -/
def finalWords (words : List Nat) (value : Nat) : List Nat :=
  if (wordsWithFallback words value).length > c_maxLoggedWords then
    (wordsWithFallback words value).take c_maxLoggedWords
  else wordsWithFallback words value

/-- Truncation flag of `addNodeInternal` (gpulogger.cc lines 343-347). -/
def finalTruncated (words : List Nat) (value : Nat) : Bool :=
  (wordsWithFallback words value).length > c_maxLoggedWords

/-- The common-field finalization of `addNodeInternal`
(gpulogger.cc lines 339-351): overwrites origin, length, source address,
words (with fallback and cap), truncation flag, attached GTE snapshot,
program counter and frame stamp. -/
def finalizeNode (node : Logged) (origin : Origin) (value : Nat) (length : Nat)
    (cpuPc : Nat) (frame : Nat) (gte : Option GTEState) : Logged :=
  { node with origin := origin, length := length, sourceAddr := value,
              words := finalWords node.words value,
              wordsTruncated := finalTruncated node.words value,
              gteState := gte, pc := cpuPc, frame := frame }

/-- `GPULogger::addNodeInternal` (gpulogger.cc lines 329-353), up to the
heatmap emission (an external GL sink, skipped when no framebuffers are
attached and out of this model's scope).  External inputs: the VRAM baseline
`acquired` that `startNewFrame` would acquire, and the CPU's current `cpuPc`
(`g_emulator->m_cpu->m_regs.pc`).  `node` carries the variant-specific fields
and any words recorded so far; the common fields are overwritten here exactly
as the C++ does. -/
def GPULogger.addNodeInternal (st : GPULogger) (acquired : List Nat) (cpuPc : Nat)
    (node : Logged) (origin : Origin) (value : Nat) (length : Nat) : GPULogger :=
  let frame := st.frameCounter
  let remaining := (evict frame st.list).1
  let gotNewFrame := (evict frame st.list).2
  let st1 : GPULogger := { st with list := remaining }
  let st2 := if gotNewFrame then st1.startNewFrame acquired else st1
  let node' : Logged := finalizeNode node origin value length cpuPc frame st2.lastGteState
  { st2 with list := st2.list ++ [node'] }

/-- The operations `GPULogger::replay` issues against the target `GPU*`. -/
inductive GpuOp where
  | partialUpdateVRAM (x y w h : Nat) (data : List Nat)
  | execute (node : Logged)
  | vblank (b : Bool)

/-- The command loop of `replay` (gpulogger.cc lines 476-478). -/
def replayLoop : List Logged → List GpuOp
  | [] => []
  | n :: rest => (if n.enabled then [GpuOp.execute n] else []) ++ replayLoop rest

/-- `GPULogger::replay` (gpulogger.cc lines 474-480), as the trace of
operations issued to the target GPU, in order. -/
def GPULogger.replay (st : GPULogger) : List GpuOp :=
  (match st.vram with
   | some d => [GpuOp.partialUpdateVRAM 0 0 1024 512 d]
   | none => []) ++
  replayLoop st.list ++ [GpuOp.vblank true]

/-- Per-character translation of `escapeJsonString`'s switch
(gpulogger.cc lines 106-126). -/
def escapeChar (c : Char) : String :=
  if c = '"' then "\\\""
  else if c = '\\' then "\\\\"
  else if c = '\n' then "\\n"
  else if c = '\r' then "\\r"
  else if c = '\t' then "\\t"
  else String.mk [c]

/-- `escapeJsonString` (gpulogger.cc lines 103-129): folds the switch over the
input, appending to the accumulator string. -/
def escapeJsonString (value : String) : String :=
  value.data.foldl (fun escaped c => escaped ++ escapeChar c) ""

/-- `originToString` (gpulogger.cc lines 131-145). -/
def originToString : Origin → String
  | Origin.DATAWRITE => "data-write"
  | Origin.CTRLWRITE => "ctrl-write"
  | Origin.DIRECT_DMA => "direct-dma"
  | Origin.CHAIN_DMA => "chain-dma"
  | Origin.REPLAY => "replay"

/-- `gteCommandToString` (gpulogger.cc lines 147-197). -/
def gteCommandToString : GTECommand → String
  | GTECommand.RTPT => "RTPT"
  | GTECommand.RTPS => "RTPS"
  | GTECommand.NCLIP => "NCLIP"
  | GTECommand.OP => "OP"
  | GTECommand.DPCS => "DPCS"
  | GTECommand.INTPL => "INTPL"
  | GTECommand.MVMVA => "MVMVA"
  | GTECommand.NCDS => "NCDS"
  | GTECommand.CDP => "CDP"
  | GTECommand.NCDT => "NCDT"
  | GTECommand.NCCS => "NCCS"
  | GTECommand.CC => "CC"
  | GTECommand.NCS => "NCS"
  | GTECommand.NCT => "NCT"
  | GTECommand.SQR => "SQR"
  | GTECommand.DCPL => "DCPL"
  | GTECommand.DPCT => "DPCT"
  | GTECommand.AVSZ3 => "AVSZ3"
  | GTECommand.AVSZ4 => "AVSZ4"
  | GTECommand.GPL => "GPL"
  | GTECommand.GPF => "GPF"
  | GTECommand.NCCT => "NCCT"
  | GTECommand.Unknown => "Unknown"

/-- One lowercase hexadecimal digit character, as `std::hex` prints it. -/
def hexChar (n : Nat) : Char :=
  if n < 10 then Char.ofNat (48 + n) else Char.ofNat (87 + n)

/-- Division-by-16 digit extraction, structurally recursive on a fuel bound
(any fuel at least `n` gives the digits of `n`; see `hexDigitsRev_succ`). -/
def hexDigitsRevAux : Nat → Nat → List Char
  | _, 0 => []
  | 0, _ + 1 => []
  | n + 1, fuel + 1 => hexChar ((n + 1) % 16) :: hexDigitsRevAux ((n + 1) / 16) fuel

/-- The hexadecimal digits of `n`, least significant first (empty for 0). -/
def hexDigitsRev (n : Nat) : List Char := hexDigitsRevAux n n

/-- Decoding spec for one lowercase hex digit character. -/
def hexVal (c : Char) : Nat :=
  if c ≤ ('9' : Char) then c.toNat - 48 else c.toNat - 87

/-- One of `0-9a-f`: the digit alphabet `std::hex` emits in lowercase mode. -/
def isLowerHexDigit (c : Char) : Bool :=
  (('0' : Char) ≤ c && c ≤ ('9' : Char)) || (('a' : Char) ≤ c && c ≤ ('f' : Char))

/-- The numeric value of a most-significant-first hex digit string. -/
def hexStringVal (l : List Char) : Nat :=
  l.foldl (fun a c => a * 16 + hexVal c) 0

/-- The numeric value of a least-significant-first hex digit list. -/
def valueOfRevDigits : List Char → Nat
  | [] => 0
  | c :: cs => hexVal c + 16 * valueOfRevDigits cs

/-- `std::hex << std::setw(w) << std::setfill('0') << n`: the hex rendering of
`n`, left padded with zeros to a minimum width of `w`. -/
def hexPad (w n : Nat) : String :=
  let ds := hexDigitsRev n
  String.mk (ds ++ List.replicate (w - ds.length) '0').reverse

/-- `colorToHex` (gpulogger.cc lines 199-203).  The source masks the color
with `0xffffff`, which on naturals is reduction modulo 2^24. -/
def colorToHex (color : Nat) : String :=
  "0x" ++ hexPad 6 (color % 2 ^ 24)

/-- `boolString` (gpulogger.cc line 205). -/
def boolString (value : Bool) : String :=
  if value then "true" else "false"

/-- A 3-element JSON array of integers. -/
def triple (a b c : Int) : String :=
  "[" ++ toString a ++ ", " ++ toString b ++ ", " ++ toString c ++ "]"

/-- A 2-element JSON array of integers. -/
def pairStr (a b : Int) : String :=
  "[" ++ toString a ++ ", " ++ toString b ++ "]"

/-- A 3x3 matrix as nested JSON arrays, row major, as the snapshot writer
spells it out element by element. -/
def mat3 (m : Fin 3 → Fin 3 → Int) : String :=
  "[" ++ triple (m 0 0) (m 0 1) (m 0 2) ++ ", " ++ triple (m 1 0) (m 1 1) (m 1 2) ++
  ", " ++ triple (m 2 0) (m 2 1) (m 2 2) ++ "]"

/-- `writeRegistersJson` (gpulogger.cc lines 207-215), as the string it sends
to the stream.  The element loop with its separator writes is the
comma-space interleaving. -/
def writeRegistersJson (name : String) (registers : Fin 32 → Nat) (indent : String) : String :=
  indent ++ "\"" ++ name ++ "\": [" ++
    String.intercalate (", ") ((List.finRange 32).map (fun i => toString (registers i))) ++ "]\n"

/-- `writeGteSnapshotJson` (gpulogger.cc lines 217-259), as the string it
sends to the stream; consecutive stream insertions are coalesced. -/
def writeGteSnapshotJson (name : String) (s : Snapshot) (indent : String) : String :=
  indent ++ "\"" ++ name ++ "\": \x7b\n" ++
  indent ++ "  \"sourceVertices3D\": [" ++ triple (s.vertices 0 0) (s.vertices 0 1) (s.vertices 0 2) ++
    ", " ++ triple (s.vertices 1 0) (s.vertices 1 1) (s.vertices 1 2) ++
    ", " ++ triple (s.vertices 2 0) (s.vertices 2 1) (s.vertices 2 2) ++ "],\n" ++
  indent ++ "  \"screenCoords\": [" ++ pairStr (s.screenCoords 0 0) (s.screenCoords 0 1) ++
    ", " ++ pairStr (s.screenCoords 1 0) (s.screenCoords 1 1) ++
    ", " ++ pairStr (s.screenCoords 2 0) (s.screenCoords 2 1) ++ "],\n" ++
  indent ++ "  \"rotation\": " ++ mat3 s.rotationMatrix ++ ",\n" ++
  indent ++ "  \"light\": " ++ mat3 s.lightMatrix ++ ",\n" ++
  indent ++ "  \"color\": " ++ mat3 s.colorMatrix ++ ",\n" ++
  indent ++ "  \"translation\": " ++ triple (s.translation 0) (s.translation 1) (s.translation 2) ++ ",\n" ++
  indent ++ "  \"projection\": \x7b\n" ++
  indent ++ "    \"offsetX\": " ++ toString s.offsetX ++ ",\n" ++
  indent ++ "    \"offsetY\": " ++ toString s.offsetY ++ ",\n" ++
  indent ++ "    \"projectionPlaneDistance\": " ++ toString s.projectionPlaneDistance ++ ",\n" ++
  indent ++ "    \"depthQueueA\": " ++ toString s.depthQueueA ++ ",\n" ++
  indent ++ "    \"depthQueueB\": " ++ toString s.depthQueueB ++ ",\n" ++
  indent ++ "    \"depthScaleFactor3\": " ++ toString s.depthScaleFactor3 ++ ",\n" ++
  indent ++ "    \"depthScaleFactor4\": " ++ toString s.depthScaleFactor4 ++ "\n" ++
  indent ++ "  \x7d,\n" ++
  writeRegistersJson ("dataRegisters") s.dataRegisters (indent ++ "  ") ++ ",\n" ++
  writeRegistersJson ("controlRegisters") s.controlRegisters (indent ++ "  ") ++
  indent ++ "\x7d"

/-- Modelled from the spec: `Logged::getName` (the per-variant symbolic
command name) is declared in gpu.h outside the excerpt; the spec only calls
it the "symbolic command name".  No claim depends on the exact names. -/
def Variant.getName : Variant → String
  | Variant.fastFill _ => "Fast Fill"
  | Variant.blitVramVram _ => "VRAM to VRAM blit"
  | Variant.blitRamVram _ => "RAM to VRAM blit"
  | Variant.blitVramRam _ => "VRAM to RAM blit"

/-- `FastFill::writeJsonFields` (gpulogger.cc lines 764-776), as the string
sent to the stream. -/
def FastFill.writeJsonFields (p : FastFill) : String :=
  ",\n" ++
  "      \"details\": \x7b\n" ++
  "        \"primitive\": \"fast_fill\",\n" ++
  "        \"color\": \"" ++ colorToHex p.color ++ "\",\n" ++
  "        \"rect\": \x7b\"x\": " ++ toString p.x ++ ", \"y\": " ++ toString p.y ++
    ", \"w\": " ++ toString p.w ++ ", \"h\": " ++ toString p.h ++ "\x7d,\n" ++
  "        \"raw\": \x7b\"x\": " ++ toString p.raw.x ++ ", \"y\": " ++ toString p.raw.y ++
    ", \"w\": " ++ toString p.raw.w ++ ", \"h\": " ++ toString p.raw.h ++ "\x7d,\n" ++
  "        \"clipped\": " ++ boolString p.clipped ++ "\n" ++
  "      \x7d"

/-- `BlitVramVram::writeJsonFields` (gpulogger.cc lines 778-791). -/
def BlitVramVram.writeJsonFields (p : BlitVramVram) : String :=
  ",\n" ++
  "      \"details\": \x7b\n" ++
  "        \"primitive\": \"blit_vram_to_vram\",\n" ++
  "        \"source\": \x7b\"x\": " ++ toString p.sX ++ ", \"y\": " ++ toString p.sY ++
    ", \"w\": " ++ toString p.w ++ ", \"h\": " ++ toString p.h ++ "\x7d,\n" ++
  "        \"destination\": \x7b\"x\": " ++ toString p.dX ++ ", \"y\": " ++ toString p.dY ++
    ", \"w\": " ++ toString p.w ++ ", \"h\": " ++ toString p.h ++ "\x7d,\n" ++
  "        \"raw\": \x7b\"sX\": " ++ toString p.raw.sX ++ ", \"sY\": " ++ toString p.raw.sY ++
    ", \"dX\": " ++ toString p.raw.dX ++ ", \"dY\": " ++ toString p.raw.dY ++
    ", \"w\": " ++ toString p.raw.w ++ ", \"h\": " ++ toString p.raw.h ++ "\x7d,\n" ++
  "        \"clipped\": " ++ boolString p.clipped ++ "\n" ++
  "      \x7d"

/-- `BlitRamVram::writeJsonFields` (gpulogger.cc lines 793-805). -/
def BlitRamVram.writeJsonFields (p : BlitRamVram) : String :=
  ",\n" ++
  "      \"details\": \x7b\n" ++
  "        \"primitive\": \"blit_ram_to_vram\",\n" ++
  "        \"destination\": \x7b\"x\": " ++ toString p.x ++ ", \"y\": " ++ toString p.y ++
    ", \"w\": " ++ toString p.w ++ ", \"h\": " ++ toString p.h ++ "\x7d,\n" ++
  "        \"raw\": \x7b\"x\": " ++ toString p.raw.x ++ ", \"y\": " ++ toString p.raw.y ++
    ", \"w\": " ++ toString p.raw.w ++ ", \"h\": " ++ toString p.raw.h ++ "\x7d,\n" ++
  "        \"clipped\": " ++ boolString p.clipped ++ ",\n" ++
  "        \"dataBytes\": " ++ toString p.data.length ++ "\n" ++
  "      \x7d"

/-- `BlitVramRam::writeJsonFields` (gpulogger.cc lines 807-818). -/
def BlitVramRam.writeJsonFields (p : BlitVramRam) : String :=
  ",\n" ++
  "      \"details\": \x7b\n" ++
  "        \"primitive\": \"blit_vram_to_ram\",\n" ++
  "        \"source\": \x7b\"x\": " ++ toString p.x ++ ", \"y\": " ++ toString p.y ++
    ", \"w\": " ++ toString p.w ++ ", \"h\": " ++ toString p.h ++ "\x7d,\n" ++
  "        \"raw\": \x7b\"x\": " ++ toString p.raw.x ++ ", \"y\": " ++ toString p.raw.y ++
    ", \"w\": " ++ toString p.raw.w ++ ", \"h\": " ++ toString p.raw.h ++ "\x7d,\n" ++
  "        \"clipped\": " ++ boolString p.clipped ++ "\n" ++
  "      \x7d"

/-- Virtual dispatch of `writeJsonFields` over the variants. -/
def Variant.writeJsonFields : Variant → String
  | Variant.fastFill p => p.writeJsonFields
  | Variant.blitVramVram p => p.writeJsonFields
  | Variant.blitRamVram p => p.writeJsonFields
  | Variant.blitVramRam p => p.writeJsonFields

/-- One entry of the `"gte"` array in `saveFrameLog`
(gpulogger.cc lines 387-401). -/
def gteEntryJson (state : GTEState) : String :=
  "    \x7b\n" ++
  "      \"command\": \"" ++ gteCommandToString state.command ++ "\",\n" ++
  "      \"pc\": \"0x" ++ hexPad 8 state.pc ++ "\",\n" ++
  writeGteSnapshotJson ("input") state.input ("      ") ++ ",\n" ++
  writeGteSnapshotJson ("output") state.output ("      ") ++ "\n    \x7d"

/-- One entry of the `"commands"` array in `saveFrameLog`
(gpulogger.cc lines 408-450). -/
def commandJson (n : Logged) : String :=
  "    \x7b\n" ++
  "      \"name\": \"" ++ escapeJsonString (Variant.getName n.variant) ++ "\",\n" ++
  "      \"origin\": \"" ++ originToString n.origin ++ "\",\n" ++
  "      \"frame\": " ++ toString n.frame ++ ",\n" ++
  "      \"pc\": \"0x" ++ hexPad 8 n.pc ++ "\",\n" ++
  "      \"source\": \x7b\"address\": " ++ toString n.sourceAddr ++
    ", \"length\": " ++ toString n.length ++ "\x7d,\n" ++
  "      \"words\": [" ++ String.intercalate (", ") (n.words.map toString) ++ "],\n" ++
  "      \"wordsTruncated\": " ++ boolString n.wordsTruncated ++ ",\n" ++
  "      \"enabled\": " ++ boolString n.enabled ++ ",\n" ++
  "      \"highlight\": " ++ boolString n.highlight ++
  (match n.gteState with
   | some gte =>
     ",\n" ++
     "      \"gte\": \x7b\n" ++
     "        \"command\": \"" ++ gteCommandToString gte.command ++ "\",\n" ++
     "        \"pc\": \"0x" ++ hexPad 8 gte.pc ++ "\",\n" ++
     writeGteSnapshotJson ("input") gte.input ("        ") ++ ",\n" ++
     writeGteSnapshotJson ("output") gte.output ("        ") ++ "\n      \x7d"
   | none => "") ++
  Variant.writeJsonFields n.variant ++ "\n" ++
  "    \x7d"

/-- The trailing aggregate statistics block of `saveFrameLog`
(gpulogger.cc lines 453-461). -/
def statsJson (stats : GPUStats) : String :=
  "  \"stats\": \x7b\n" ++
  "    \"triangles\": " ++ toString stats.triangles ++ ",\n" ++
  "    \"texturedTriangles\": " ++ toString stats.texturedTriangles ++ ",\n" ++
  "    \"rectangles\": " ++ toString stats.rectangles ++ ",\n" ++
  "    \"sprites\": " ++ toString stats.sprites ++ ",\n" ++
  "    \"pixelWrites\": " ++ toString stats.pixelWrites ++ ",\n" ++
  "    \"pixelReads\": " ++ toString stats.pixelReads ++ ",\n" ++
  "    \"texelReads\": " ++ toString stats.texelReads ++ "\n" ++
  "  \x7d\n"

/-- The sequence of chunks `saveFrameLog` sends to the output stream
(gpulogger.cc lines 382-462), in order; consecutive stream insertions are
coalesced into chunks (the claims are insensitive to write granularity).
The stats block reflects `cumulateStats` folded over the whole list, as the
command loop accumulates it. -/
def framePieces (l : GPULogger) : List String :=
  ["\x7b\n",
   "  \"frame\": " ++ toString l.frameCounter ++ ",\n",
   "  \"gte\": [\n",
   String.intercalate (",\n") (l.gteFrameLog.map gteEntryJson),
   "\n  ],\n",
   "  \"commands\": [\n",
   String.intercalate (",\n") (l.list.map commandJson),
   "\n  ],\n",
   statsJson (l.list.foldl (fun s n => Variant.cumulateStats n.variant s) {}),
   "\x7d\n"]

/-- The state of a `std::ofstream`: its good bit and the chunks successfully
written so far.  A C++ stream that has entered a failed state ignores all
further insertions and stays failed. -/
structure StreamState where
  good : Bool
  written : List String
  deriving DecidableEq, Repr

/-- One stream insertion: `ok` tells whether this write physically succeeds.
A write on a failed stream is a no-op; a failing write sets the fail state. -/
def writeStr (ok : Bool) (s : StreamState) (piece : String) : StreamState :=
  if s.good then
    if ok then { s with written := s.written ++ [piece] }
    else { s with good := false }
  else s

/-- Runs a sequence of stream insertions; `oracle i` tells whether the i-th
insertion physically succeeds (the I/O environment). -/
def runWrites (oracle : Nat → Bool) : Nat → StreamState → List String → StreamState
  | _, s, [] => s
  | i, s, p :: ps => runWrites oracle (i + 1) (writeStr (oracle i) s p) ps

/-- `GPULogger::saveFrameLog` (gpulogger.cc lines 378-465).  `canOpen` models
whether `std::ofstream(path)` opens; `oracle` models which physical writes
succeed.  Returns the C++ return value (`output.good()` at the end, `false`
on open failure) and the chunks that reached the file. -/
def GPULogger.saveFrameLog (l : GPULogger) (canOpen : Bool) (oracle : Nat → Bool) :
    Bool × List String :=
  if !canOpen then (false, [])
  else
    let s := runWrites oracle 0 ⟨true, []⟩ (framePieces l)
    (s.good, s.written)

/-- Rounds `off` up to the next multiple of `align` (C object layout). -/
def alignTo (off align : Nat) : Nat := (off + align - 1) / align * align

/-- Lays out a C struct under `#pragma pack(pack)`: each field is placed at
its offset rounded up to `min(natural alignment, pack)`; the running pair is
(next free offset, struct alignment so far). -/
def fieldLayout (pack : Nat) (fields : List (Nat × Nat)) : Nat × Nat :=
  fields.foldl
    (fun acc f =>
      let al := min f.2 pack
      (alignTo acc.1 al + f.1, max acc.2 al))
    (0, 1)

/-- The `sizeof` of a packed C struct: the end offset rounded up to the
struct alignment (tail padding included). -/
def structSize (pack : Nat) (fields : List (Nat × Nat)) : Nat :=
  let l := fieldLayout pack fields
  alignTo l.1 l.2

/-- The fields of `LogEntry` (gpulogger_types.h lines 79-110), in declaration
order, as (sizeof, natural alignment) pairs on a standard ILP32/LP64 host:
uint32/int32 are 4-byte 4-aligned, uint16/int16 2-byte 2-aligned, uint8
1-byte 1-aligned; arrays take element count x element size with element
alignment. -/
def logEntryFields : List (Nat × Nat) :=
  [(4, 4),   -- frame
   (4, 4),   -- pc
   (4, 4),   -- gp0_cmd
   (2, 2),   -- primitive_type
   (2, 2),   -- vertex_count
   (48, 4),  -- packet_words[12]
   (8, 2),   -- vx[4]
   (8, 2),   -- vy[4]
   (8, 2),   -- vz[4]
   (8, 2),   -- sx[4]
   (8, 2),   -- sy[4]
   (18, 2),  -- rot[3][3]
   (4, 4),   -- trx
   (4, 4),   -- try_
   (4, 4),   -- trz
   (4, 4),   -- ofx
   (4, 4),   -- ofy
   (2, 2),   -- h
   (2, 2),   -- dqa
   (2, 2),   -- dqb
   (2, 2),   -- zsf3
   (2, 2),   -- zsf4
   (2, 2),   -- clut
   (2, 2),   -- tpage
   (4, 1),   -- u[4]
   (4, 1)]   -- v[4]

/-- `LogEntrySizeBytes` (gpulogger_types.h lines 112-116): the padded size of
`LogEntry` under `#pragma pack(push, 4)`. -/
def LogEntrySizeBytes : Nat := structSize 4 logEntryFields

/-- The two triangles `getVertices` emits for a filled rectangle: together
they cover exactly the axis-aligned rectangle from `(x, y)` to
`(x + w, y + h)`, each contributing half of its area. -/
def rectTris (x y w h : Nat) : List Tri :=
  [⟨⟨(x : Int), (y : Int)⟩, ⟨(x + w : Nat), (y : Int)⟩, ⟨(x + w : Nat), (y + h : Nat)⟩⟩,
   ⟨⟨(x + w : Nat), (y + h : Nat)⟩, ⟨(x : Int), (y + h : Nat)⟩, ⟨(x : Int), (y : Int)⟩⟩]

/-- The two triangles of the 1-pixel-wide quad `addLine` emits in the
non-coincident cases, with the already-nudged endpoints and the
perpendicular offset. -/
def lineQuad (x1 y1 x2 y2 xOff yOff : Int) : List Tri :=
  [⟨⟨x1, y1⟩, ⟨x2, y2⟩, ⟨x2 + xOff, y2 + yOff⟩⟩,
   ⟨⟨x2 + xOff, y2 + yOff⟩, ⟨x1 + xOff, y1 + yOff⟩, ⟨x1, y1⟩⟩]

/-- The FastFill of the spec's scenario: `x:10, y:20, w:5, h:5,
color:0x112233`, unclipped. -/
def fillSample : FastFill :=
  { x := 10, y := 20, w := 5, h := 5, color := 0x112233,
    raw := { x := 10, y := 20, w := 5, h := 5 }, clipped := false }

/-- A default GTE state snapshot, used as a concrete recorded state. -/
def gteSample : GTEState := {}

/-- A concrete VRAM baseline payload. -/
def vramSample : List Nat := [1, 2, 3]

/-- A log entry left over from frame 4. -/
def nodeStale : Logged :=
  { frame := 4, enabled := true, variant := Variant.fastFill fillSample }

/-- A freshly constructed node as handed to `addNodeInternal`, before its
common fields are finalized. -/
def nodeFresh : Logged :=
  { words := [], enabled := true, variant := Variant.fastFill fillSample }

/-- A disabled log entry (excluded from replay). -/
def nodeDisabled : Logged :=
  { frame := 5, enabled := false, variant := Variant.fastFill fillSample }

/-- An enabled log entry of frame 5. -/
def nodeEnabled : Logged :=
  { frame := 5, enabled := true, variant := Variant.fastFill fillSample }

/-- A logger at frame 5 still holding a frame-4 entry, with GTE tracking
considered current for frame 5 and state logging disabled. -/
def staleLogger : GPULogger :=
  { list := [nodeStale], frameCounter := 5, gteFrameLog := [], lastGteState := none,
    lastGteFrame := 5, enabled := false, vram := none }

/-- A logger with a captured VRAM baseline and a two-entry log, one entry
disabled. -/
def replayLogger : GPULogger :=
  { list := [nodeEnabled, nodeDisabled], frameCounter := 5, gteFrameLog := [],
    lastGteState := none, lastGteFrame := 5, enabled := false, vram := some vramSample }

/-- A logger with no VRAM baseline captured. -/
def noVramLogger : GPULogger :=
  { list := [nodeEnabled], frameCounter := 5, gteFrameLog := [], lastGteState := none,
    lastGteFrame := 5, enabled := false, vram := none }

/-! Helper lemmas. -/

theorem getLast?_append_singleton (l : List α) (a : α) : (l ++ [a]).getLast? = some a :=
  List.getLast?_concat l

theorem finalWords_ne_nil (ws : List Nat) (v : Nat) : finalWords ws v ≠ [] := by
  have hbase : wordsWithFallback ws v ≠ [] := by
    unfold wordsWithFallback
    split
    · simp
    · next h => simpa [List.isEmpty_iff] using h
  unfold finalWords
  split
  · simp [List.take_eq_nil_iff, hbase, c_maxLoggedWords]
  · exact hbase

theorem finalWords_length_le (ws : List Nat) (v : Nat) :
    (finalWords ws v).length ≤ c_maxLoggedWords := by
  unfold finalWords
  split
  · simp
  · next h => omega

theorem finalTruncated_iff (ws : List Nat) (v : Nat) :
    finalTruncated ws v = true ↔ c_maxLoggedWords < ws.length := by
  unfold finalTruncated wordsWithFallback
  split
  · next h =>
    simp only [List.isEmpty_iff] at h
    subst h
    simp [c_maxLoggedWords]
  · simp

theorem triAreaSum_rectTris (x y w h : Nat) :
    triAreaSum (rectTris x y w h) = 2 * (w * h) := by
  have e1 : ((x + w : Nat) : Int) - (x : Int) = (w : Int) := by push_cast; ring
  have e2 : ((y + h : Nat) : Int) - (y : Int) = (h : Int) := by push_cast; ring
  have e3 : (x : Int) - ((x + w : Nat) : Int) = -(w : Int) := by push_cast; ring
  have e4 : (y : Int) - ((y + h : Nat) : Int) = -(h : Int) := by push_cast; ring
  simp only [triAreaSum, rectTris, area2, List.map_cons, List.map_nil, List.sum_cons,
    List.sum_nil, e1, e2, e3, e4, sub_self, mul_zero, sub_zero, neg_mul_neg]
  rw [← Nat.cast_mul, Int.natAbs_ofNat]
  omega

/-! Claim theorems. -/

/-- C7: the binary export's fixed record `LogEntry` occupies exactly 168
bytes on a standard host under `#pragma pack(push, 4)` — which includes 4
bytes of padding, since the raw field sizes only sum to 164 — and
`LogEntrySizeBytes()` returns that padded size, pinned by the header's
build-time assertion. -/
theorem C7_logEntrySize :
    LogEntrySizeBytes = 168 ∧ (logEntryFields.map Prod.fst).sum = 164 := by
  decide

theorem finalWords_of_empty (v : Nat) : finalWords [] v = [v] := rfl

theorem finalWords_of_ne_nil (ws : List Nat) (v : Nat) (h : ws ≠ []) :
    finalWords ws v = ws.take c_maxLoggedWords := by
  have hbase : wordsWithFallback ws v = ws := by
    unfold wordsWithFallback
    rw [if_neg]
    simpa [List.isEmpty_iff] using h
  unfold finalWords
  rw [hbase]
  split
  · rfl
  · next hle =>
    exact (List.take_of_length_le (by omega)).symm

/-- C2: after `addNodeInternal` finalizes a command, the appended entry has a
non-empty word list of at most `c_maxLoggedWords` words: empty words become
the single triggering value, non-empty words are kept with everything past
the first `c_maxLoggedWords` dropped, and the truncation flag is set exactly
when the pre-finalization word count exceeded the cap. -/
theorem C2_wordsFinalized (st : GPULogger) (acquired : List Nat) (cpuPc : Nat)
    (node : Logged) (origin : Origin) (value length : Nat) :
    ∃ appended : Logged,
      (st.addNodeInternal acquired cpuPc node origin value length).list.getLast? = some appended ∧
      appended.words ≠ [] ∧
      appended.words.length ≤ c_maxLoggedWords ∧
      (appended.wordsTruncated = true ↔ c_maxLoggedWords < node.words.length) ∧
      (node.words = [] → appended.words = [value]) ∧
      (node.words ≠ [] → appended.words = node.words.take c_maxLoggedWords) := by
  refine ⟨_, getLast?_append_singleton _ _, finalWords_ne_nil _ _, finalWords_length_le _ _,
    finalTruncated_iff _ _, ?_, ?_⟩
  · intro h
    show finalWords node.words value = [value]
    rw [h]
    exact finalWords_of_empty value
  · intro h
    show finalWords node.words value = node.words.take c_maxLoggedWords
    exact finalWords_of_ne_nil node.words value h

/-- Witness for C2: an empty-words node finalized with triggering value 9
carries exactly `[9]`; a node carrying `[1, 2]` keeps exactly those words. -/
theorem C2_wordsFinalized_witness :
    (staleLogger.addNodeInternal vramSample 7 nodeFresh Origin.DATAWRITE 9 1).list.getLast?.map
      (fun e => e.words) = some [9] ∧
    (staleLogger.addNodeInternal vramSample 7 { nodeFresh with words := [1, 2] }
      Origin.DATAWRITE 9 1).list.getLast?.map (fun e => e.words) = some [1, 2] := by
  constructor
  · obtain ⟨a, h1, _, _, _, hemp, _⟩ :=
      C2_wordsFinalized staleLogger vramSample 7 nodeFresh Origin.DATAWRITE 9 1
    rw [h1]
    show some a.words = some [9]
    rw [hemp rfl]
  · obtain ⟨a, h1, _, _, _, _, hne⟩ :=
      C2_wordsFinalized staleLogger vramSample 7 { nodeFresh with words := [1, 2] }
        Origin.DATAWRITE 9 1
    rw [h1]
    show some a.words = some [1, 2]
    rw [hne (by decide)]
    rfl

/-- C3: per fill/blit variant, `cumulateStats` adds `w*h` to the pixel
write / read counters exactly as described (FastFill and RAM→VRAM: writes
only; VRAM→VRAM: both; VRAM→RAM: reads only), the WRITE geometry is the
two-triangle cover of the destination rectangle (nothing for VRAM→RAM), the
READ geometry is the two-triangle cover of the source rectangle (nothing for
FastFill and RAM→VRAM), and the doubled triangle area emitted per pixel-op
class equals twice the pixel count added to the matching counter class. -/
theorem C3_statsGeometry :
    (∀ (p : FastFill) (stats : GPUStats),
      (p.cumulateStats stats).pixelWrites = stats.pixelWrites + p.w * p.h ∧
      (p.cumulateStats stats).pixelReads = stats.pixelReads ∧
      p.getVertices PixelOp.WRITE = rectTris p.x p.y p.w p.h ∧
      p.getVertices PixelOp.READ = [] ∧
      triAreaSum (p.getVertices PixelOp.WRITE) = 2 * (p.w * p.h) ∧
      triAreaSum (p.getVertices PixelOp.READ) = 0) ∧
    (∀ (p : BlitRamVram) (stats : GPUStats),
      (p.cumulateStats stats).pixelWrites = stats.pixelWrites + p.w * p.h ∧
      (p.cumulateStats stats).pixelReads = stats.pixelReads ∧
      p.getVertices PixelOp.WRITE = rectTris p.x p.y p.w p.h ∧
      p.getVertices PixelOp.READ = [] ∧
      triAreaSum (p.getVertices PixelOp.WRITE) = 2 * (p.w * p.h) ∧
      triAreaSum (p.getVertices PixelOp.READ) = 0) ∧
    (∀ (p : BlitVramVram) (stats : GPUStats),
      (p.cumulateStats stats).pixelWrites = stats.pixelWrites + p.w * p.h ∧
      (p.cumulateStats stats).pixelReads = stats.pixelReads + p.w * p.h ∧
      p.getVertices PixelOp.WRITE = rectTris p.dX p.dY p.w p.h ∧
      p.getVertices PixelOp.READ = rectTris p.sX p.sY p.w p.h ∧
      triAreaSum (p.getVertices PixelOp.WRITE) = 2 * (p.w * p.h) ∧
      triAreaSum (p.getVertices PixelOp.READ) = 2 * (p.w * p.h)) ∧
    (∀ (p : BlitVramRam) (stats : GPUStats),
      (p.cumulateStats stats).pixelWrites = stats.pixelWrites ∧
      (p.cumulateStats stats).pixelReads = stats.pixelReads + p.w * p.h ∧
      p.getVertices PixelOp.WRITE = [] ∧
      p.getVertices PixelOp.READ = rectTris p.x p.y p.w p.h ∧
      triAreaSum (p.getVertices PixelOp.WRITE) = 0 ∧
      triAreaSum (p.getVertices PixelOp.READ) = 2 * (p.w * p.h)) := by
  refine ⟨fun p stats => ⟨?_, rfl, rfl, rfl, ?_, rfl⟩,
          fun p stats => ⟨?_, rfl, rfl, rfl, ?_, rfl⟩,
          fun p stats => ⟨?_, ?_, rfl, rfl, ?_, ?_⟩,
          fun p stats => ⟨rfl, ?_, rfl, rfl, rfl, ?_⟩⟩
  · simp [FastFill.cumulateStats, Nat.mul_comm]
  · rw [show p.getVertices PixelOp.WRITE = rectTris p.x p.y p.w p.h from rfl]
    exact triAreaSum_rectTris p.x p.y p.w p.h
  · simp [BlitRamVram.cumulateStats, Nat.mul_comm]
  · rw [show p.getVertices PixelOp.WRITE = rectTris p.x p.y p.w p.h from rfl]
    exact triAreaSum_rectTris p.x p.y p.w p.h
  · simp [BlitVramVram.cumulateStats, Nat.mul_comm]
  · simp [BlitVramVram.cumulateStats, Nat.mul_comm]
  · rw [show p.getVertices PixelOp.WRITE = rectTris p.dX p.dY p.w p.h from rfl]
    exact triAreaSum_rectTris p.dX p.dY p.w p.h
  · rw [show p.getVertices PixelOp.READ = rectTris p.sX p.sY p.w p.h from rfl]
    exact triAreaSum_rectTris p.sX p.sY p.w p.h
  · simp [BlitVramRam.cumulateStats, Nat.mul_comm]
  · rw [show p.getVertices PixelOp.READ = rectTris p.x p.y p.w p.h from rfl]
    exact triAreaSum_rectTris p.x p.y p.w p.h

theorem triAreaSum_lineQuad (x1 y1 x2 y2 xOff yOff : Int) :
    triAreaSum (lineQuad x1 y1 x2 y2 xOff yOff) =
      2 * ((x2 - x1) * yOff - xOff * (y2 - y1)).natAbs := by
  have h1 : area2 ⟨⟨x1, y1⟩, ⟨x2, y2⟩, ⟨x2 + xOff, y2 + yOff⟩⟩ =
      ((x2 - x1) * yOff - xOff * (y2 - y1)).natAbs := by
    unfold area2
    congr 1
    ring
  have h2 : area2 ⟨⟨x2 + xOff, y2 + yOff⟩, ⟨x1 + xOff, y1 + yOff⟩, ⟨x1, y1⟩⟩ =
      ((x2 - x1) * yOff - xOff * (y2 - y1)).natAbs := by
    unfold area2
    congr 1
    ring
  simp [triAreaSum, lineQuad, h1, h2]
  omega

/-- C5: `addLine` is a deterministic function of the two integer endpoints.
Coincident endpoints yield the two-triangle 1x1 quad anchored at the shared
point, so `(5,5)-(5,5)` gives the quad `(5,5)-(6,6)`.  Otherwise the segment
is x-major exactly when `|dx| > |dy|`; the perpendicular offset is one pixel
along the minor axis, and the endpoint selected by the direction of travel
is nudged one unit along the major axis (the far endpoint for positive
travel, the near one for negative travel), so the quad has nonzero doubled
area `2*(|major delta| + 1)`; `(0,0)-(4,0)` gives the quad covering
`x in [0,5), y in [0,1)`. -/
theorem C5_addLine :
    (addLine 5 5 5 5 =
      [⟨⟨5, 5⟩, ⟨6, 5⟩, ⟨6, 6⟩⟩, ⟨⟨6, 6⟩, ⟨5, 6⟩, ⟨5, 5⟩⟩]) ∧
    (addLine 0 0 4 0 =
      [⟨⟨0, 0⟩, ⟨5, 0⟩, ⟨5, 1⟩⟩, ⟨⟨5, 1⟩, ⟨0, 1⟩, ⟨0, 0⟩⟩]) ∧
    (∀ x1 y1 x2 y2 : Int, x2 = x1 → y2 = y1 →
      addLine x1 y1 x2 y2 =
        [⟨⟨x1, y1⟩, ⟨x1 + 1, y1⟩, ⟨x1 + 1, y1 + 1⟩⟩,
         ⟨⟨x1 + 1, y1 + 1⟩, ⟨x1, y1 + 1⟩, ⟨x1, y1⟩⟩] ∧
      triAreaSum (addLine x1 y1 x2 y2) = 2) ∧
    (∀ x1 y1 x2 y2 : Int, (x2 - x1).natAbs > (y2 - y1).natAbs →
      addLine x1 y1 x2 y2 =
        (if x2 - x1 > 0 then lineQuad x1 y1 (x2 + 1) y2 0 1
         else lineQuad (x1 + 1) y1 x2 y2 0 1) ∧
      triAreaSum (addLine x1 y1 x2 y2) = 2 * ((x2 - x1).natAbs + 1)) ∧
    (∀ x1 y1 x2 y2 : Int, ¬(x2 - x1 = 0 ∧ y2 - y1 = 0) →
      (x2 - x1).natAbs ≤ (y2 - y1).natAbs →
      addLine x1 y1 x2 y2 =
        (if y2 - y1 > 0 then lineQuad x1 y1 x2 (y2 + 1) 1 0
         else lineQuad x1 (y1 + 1) x2 y2 1 0) ∧
      triAreaSum (addLine x1 y1 x2 y2) = 2 * ((y2 - y1).natAbs + 1)) := by
  refine ⟨by decide, by decide, ?_, ?_, ?_⟩
  · intro x1 y1 x2 y2 hx hy
    have h1 : ∀ a b : Int, area2 ⟨⟨a, b⟩, ⟨a + 1, b⟩, ⟨a + 1, b + 1⟩⟩ = 1 := by
      intro a b
      unfold area2
      have e : (a + 1 - a) * (b + 1 - b) - (a + 1 - a) * (b - b) = 1 := by ring
      rw [e]
      rfl
    have h2 : ∀ a b : Int, area2 ⟨⟨a + 1, b + 1⟩, ⟨a, b + 1⟩, ⟨a, b⟩⟩ = 1 := by
      intro a b
      unfold area2
      have e : (a - (a + 1)) * (b - (b + 1)) - (a - (a + 1)) * (b + 1 - (b + 1)) = 1 := by
        ring
      rw [e]
      rfl
    subst hx
    subst hy
    exact ⟨by simp [addLine], by simp [addLine, triAreaSum, h1, h2]⟩
  · intro x1 y1 x2 y2 h
    have hne : ¬(x2 - x1 = 0 ∧ y2 - y1 = 0) := by
      rintro ⟨h1, h2⟩
      rw [h1, h2] at h
      omega
    have heq : addLine x1 y1 x2 y2 =
        (if x2 - x1 > 0 then lineQuad x1 y1 (x2 + 1) y2 0 1
         else lineQuad (x1 + 1) y1 x2 y2 0 1) := by
      simp only [addLine]
      rw [if_neg hne, if_pos h]
      split_ifs <;> simp [lineQuad]
    refine ⟨heq, ?_⟩
    rw [heq]
    split_ifs with hdx <;> rw [triAreaSum_lineQuad] <;>
      simp only [mul_one, zero_mul, sub_zero] <;> omega
  · intro x1 y1 x2 y2 hne h
    have heq : addLine x1 y1 x2 y2 =
        (if y2 - y1 > 0 then lineQuad x1 y1 x2 (y2 + 1) 1 0
         else lineQuad x1 (y1 + 1) x2 y2 1 0) := by
      simp only [addLine]
      rw [if_neg hne, if_neg (by omega)]
      split_ifs <;> simp [lineQuad]
    refine ⟨heq, ?_⟩
    rw [heq]
    split_ifs with hdy <;> rw [triAreaSum_lineQuad] <;>
      simp only [mul_zero, one_mul, zero_sub, Int.natAbs_neg] <;> omega

/-- Witness for C5: the hypothesised clauses applied at concrete endpoints:
the x-major segment `(0,0)-(4,0)`, the y-major segment `(0,0)-(0,3)`, and
the coincident pair `(7,9)-(7,9)`. -/
theorem C5_addLine_witness :
    (addLine 0 0 4 0 = lineQuad 0 0 5 0 0 1 ∧ triAreaSum (addLine 0 0 4 0) = 10) ∧
    (addLine 0 0 0 3 = lineQuad 0 0 0 4 1 0 ∧ triAreaSum (addLine 0 0 0 3) = 8) ∧
    (addLine 7 9 7 9 =
      [⟨⟨7, 9⟩, ⟨8, 9⟩, ⟨8, 10⟩⟩, ⟨⟨8, 10⟩, ⟨7, 10⟩, ⟨7, 9⟩⟩] ∧
     triAreaSum (addLine 7 9 7 9) = 2) := by
  refine ⟨?_, ?_, ?_⟩
  · have h := C5_addLine.2.2.2.1 0 0 4 0 (by decide)
    refine ⟨h.1.trans (by decide), h.2.trans (by decide)⟩
  · have h := C5_addLine.2.2.2.2 0 0 0 3 (by decide) (by decide)
    refine ⟨h.1.trans (by decide), h.2.trans (by decide)⟩
  · have h := C5_addLine.2.2.1 7 9 7 9 rfl rfl
    exact ⟨h.1, h.2⟩

theorem replayLoop_eq (l : List Logged) :
    replayLoop l = (l.filter (fun n => n.enabled)).map GpuOp.execute := by
  induction l with
  | nil => rfl
  | cons n rest ih =>
    by_cases h : n.enabled <;> simp [replayLoop, List.filter_cons, h, ih]

/-- C4: `replay` first restores the captured VRAM baseline over the full
1024x512 extent at origin (0,0) when one is present, and skips the restore
when none was captured; it then re-issues exactly the enabled commands, in
log order, and finally signals a vertical sync to the target. -/
theorem C4_replay (st : GPULogger) :
    (∀ d : List Nat, st.vram = some d →
      st.replay = GpuOp.partialUpdateVRAM 0 0 1024 512 d ::
        ((st.list.filter (fun n => n.enabled)).map GpuOp.execute ++ [GpuOp.vblank true])) ∧
    (st.vram = none →
      st.replay = (st.list.filter (fun n => n.enabled)).map GpuOp.execute ++
        [GpuOp.vblank true]) := by
  constructor
  · intro d hd
    simp [GPULogger.replay, hd, replayLoop_eq]
  · intro hd
    simp [GPULogger.replay, hd, replayLoop_eq]

/-- Witness for C4: `replay` applied to a logger holding a baseline and a
two-entry log with the second entry disabled, and to a logger with no
baseline. -/
theorem C4_replay_witness :
    replayLogger.replay =
      [GpuOp.partialUpdateVRAM 0 0 1024 512 vramSample, GpuOp.execute nodeEnabled,
       GpuOp.vblank true] ∧
    noVramLogger.replay = [GpuOp.execute nodeEnabled, GpuOp.vblank true] := by
  constructor
  · exact ((C4_replay replayLogger).1 vramSample rfl).trans rfl
  · exact ((C4_replay noVramLogger).2 rfl).trans rfl

theorem evict_of_all_eq (f : Nat) (l : List Logged) (h : ∀ e ∈ l, e.frame = f) :
    evict f l = (l, false) := by
  cases l with
  | nil => rfl
  | cons e rest => simp [evict, h e (List.mem_cons_self _ _)]

theorem evict_fst_of_all_ne (f : Nat) (l : List Logged) (h : ∀ e ∈ l, e.frame ≠ f) :
    (evict f l).1 = [] := by
  induction l with
  | nil => rfl
  | cons e rest ih =>
    simp [evict, h e (List.mem_cons_self _ _)]
    exact ih (fun x hx => h x (List.mem_cons_of_mem _ hx))

theorem evict_of_all_ne (f : Nat) (l : List Logged) (h : ∀ e ∈ l, e.frame ≠ f)
    (hnil : l ≠ []) : evict f l = ([], true) := by
  cases l with
  | nil => exact absurd rfl hnil
  | cons e rest =>
    have hrest := evict_fst_of_all_ne f rest (fun x hx => h x (List.mem_cons_of_mem _ hx))
    simp [evict, h e (List.mem_cons_self _ _), hrest]

/-- When the whole log is already on the current frame, `addNodeInternal`
evicts nothing and only appends the finalized node. -/
theorem addNodeInternal_no_evict (st : GPULogger) (acquired : List Nat) (cpuPc : Nat)
    (node : Logged) (origin : Origin) (value length : Nat)
    (h : ∀ e ∈ st.list, e.frame = st.frameCounter) :
    st.addNodeInternal acquired cpuPc node origin value length =
      { st with list := st.list ++
          [finalizeNode node origin value length cpuPc st.frameCounter st.lastGteState] } := by
  simp [GPULogger.addNodeInternal, evict_of_all_eq st.frameCounter st.list h]

/-- When the whole (non-empty) log is stale, `addNodeInternal` destroys every
entry, starts a new frame (acquiring the VRAM baseline and resetting the GTE
tracking state) and appends the node, whose snapshot is therefore empty. -/
theorem addNodeInternal_evict_all (st : GPULogger) (acquired : List Nat) (cpuPc : Nat)
    (node : Logged) (origin : Origin) (value length : Nat)
    (h : ∀ e ∈ st.list, e.frame ≠ st.frameCounter) (hnil : st.list ≠ []) :
    st.addNodeInternal acquired cpuPc node origin value length =
      { st with list := [finalizeNode node origin value length cpuPc st.frameCounter none],
                vram := some acquired, gteFrameLog := [], lastGteState := none,
                lastGteFrame := st.frameCounter } := by
  simp [GPULogger.addNodeInternal, evict_of_all_ne st.frameCounter st.list h hnil,
    GPULogger.startNewFrame]

/-- C1: on every `addNodeInternal` call (from any reachable log state, i.e.
one whose entries all share one frame number), every entry whose frame
differs from the current frame counter is destroyed, scanning from the
oldest entry; eviction happens exactly when some entry's frame differs; if
any entry was evicted the VRAM baseline is re-acquired and the GTE tracking
state (per-frame trace, last snapshot, held frame) is reset before the
append — so the appended node carries no snapshot — and otherwise the
baseline and GTE state are untouched; afterwards every entry in the log has
frame equal to the current frame counter. -/
theorem C1_eviction (st : GPULogger) (acquired : List Nat) (cpuPc : Nat)
    (node : Logged) (origin : Origin) (value length : Nat)
    (hhom : ∀ e ∈ st.list, ∀ e' ∈ st.list, e.frame = e'.frame) :
    (∀ e ∈ (st.addNodeInternal acquired cpuPc node origin value length).list,
      e.frame = st.frameCounter) ∧
    (st.addNodeInternal acquired cpuPc node origin value length).list.dropLast =
      st.list.filter (fun e => e.frame == st.frameCounter) ∧
    ((evict st.frameCounter st.list).2 = true ↔
      ∃ e ∈ st.list, e.frame ≠ st.frameCounter) ∧
    ((evict st.frameCounter st.list).2 = true →
      (st.addNodeInternal acquired cpuPc node origin value length).vram = some acquired ∧
      (st.addNodeInternal acquired cpuPc node origin value length).gteFrameLog = [] ∧
      (st.addNodeInternal acquired cpuPc node origin value length).lastGteState = none ∧
      (st.addNodeInternal acquired cpuPc node origin value length).lastGteFrame =
        st.frameCounter ∧
      (st.addNodeInternal acquired cpuPc node origin value length).list.getLast?.map
        (fun e => e.gteState) = some none) ∧
    ((evict st.frameCounter st.list).2 = false →
      (st.addNodeInternal acquired cpuPc node origin value length).vram = st.vram ∧
      (st.addNodeInternal acquired cpuPc node origin value length).gteFrameLog =
        st.gteFrameLog ∧
      (st.addNodeInternal acquired cpuPc node origin value length).list.getLast?.map
        (fun e => e.gteState) = some st.lastGteState) := by
  by_cases hall : ∀ x ∈ st.list, x.frame = st.frameCounter
  · have hev : evict st.frameCounter st.list = (st.list, false) :=
      evict_of_all_eq _ _ hall
    rw [addNodeInternal_no_evict st acquired cpuPc node origin value length hall]
    refine ⟨?_, ?_, ?_, ?_, ?_⟩
    · intro x hx
      rcases List.mem_append.mp hx with hx | hx
      · exact hall x hx
      · rw [List.mem_singleton.mp hx]
        rfl
    · rw [List.dropLast_concat]
      exact (List.filter_eq_self.mpr (fun a ha => by simp [hall a ha])).symm
    · refine ⟨fun h => absurd h (by rw [hev]; simp), ?_⟩
      rintro ⟨x, hx, hne⟩
      exact absurd (hall x hx) hne
    · intro htrue
      rw [hev] at htrue
      exact absurd htrue (by simp)
    · intro _
      refine ⟨rfl, rfl, ?_⟩
      rw [show (({ st with
            list := st.list ++
              [finalizeNode node origin value length cpuPc st.frameCounter st.lastGteState]
            : GPULogger }).list) = st.list ++
              [finalizeNode node origin value length cpuPc st.frameCounter st.lastGteState]
          from rfl, getLast?_append_singleton]
      rfl
  · push_neg at hall
    obtain ⟨x0, hx0, hne0⟩ := hall
    have hallne : ∀ x ∈ st.list, x.frame ≠ st.frameCounter := by
      intro x hx
      rw [hhom x hx x0 hx0]
      exact hne0
    have hnil : st.list ≠ [] := by
      intro h
      rw [h] at hx0
      exact (List.not_mem_nil x0) hx0
    have hev : evict st.frameCounter st.list = ([], true) :=
      evict_of_all_ne _ _ hallne hnil
    rw [addNodeInternal_evict_all st acquired cpuPc node origin value length hallne hnil]
    refine ⟨?_, ?_, ?_, ?_, ?_⟩
    · intro x hx
      rw [List.mem_singleton.mp hx]
      rfl
    · rw [List.dropLast_single]
      exact (List.filter_eq_nil_iff.mpr (fun a ha => by simp [hallne a ha])).symm
    · exact ⟨fun _ => ⟨x0, hx0, hne0⟩, fun _ => by rw [hev]⟩
    · intro _
      exact ⟨rfl, rfl, rfl, rfl, rfl⟩
    · intro hfalse
      rw [hev] at hfalse
      exact absurd hfalse (by simp)

/-- Witness for C1: a logger at frame 5 holding one stale frame-4 entry; the
add call evicts it, re-acquires the baseline, and leaves only the new
frame-5 entry. -/
theorem C1_eviction_witness :
    (evict staleLogger.frameCounter staleLogger.list).2 = true ∧
    (staleLogger.addNodeInternal vramSample 7 nodeFresh Origin.DATAWRITE 9 1).vram =
      some vramSample ∧
    (staleLogger.addNodeInternal vramSample 7 nodeFresh Origin.DATAWRITE 9 1).gteFrameLog =
      [] ∧
    (staleLogger.addNodeInternal vramSample 7 nodeFresh Origin.DATAWRITE 9 1).list.dropLast =
      [] ∧
    (∀ e ∈ (staleLogger.addNodeInternal vramSample 7 nodeFresh Origin.DATAWRITE 9 1).list,
      e.frame = 5) := by
  have hhom : ∀ e ∈ staleLogger.list, ∀ e' ∈ staleLogger.list, e.frame = e'.frame := by
    intro e he e' he'
    simp [staleLogger] at he he'
    rw [he, he']
  have h := C1_eviction staleLogger vramSample 7 nodeFresh Origin.DATAWRITE 9 1 hhom
  have htrue : (evict staleLogger.frameCounter staleLogger.list).2 = true := rfl
  refine ⟨htrue, (h.2.2.2.1 htrue).1, (h.2.2.2.1 htrue).2.1, ?_, ?_⟩
  · rw [h.2.1]
    rfl
  · intro e he
    exact h.1 e he

/-- C10 (amended): every `recordGteState` call replaces the tracker's most
recent snapshot with the given state even when state logging is disabled,
after the frame-boundary reset when the held frame differs from the current
frame counter; the per-frame trace is appended to only when logging is
enabled.  A command logged afterwards in the same frame carries that
snapshot — regardless of the enabled flag — provided the log holds no entry
from an older frame at that point (otherwise the eviction-triggered
`startNewFrame` clears the snapshot before the append). -/
theorem C10_recordGteState (st : GPULogger) (state : GTEState) :
    (st.recordGteState state).lastGteState = some state ∧
    (st.recordGteState state).gteFrameLog =
      (if st.lastGteFrame = st.frameCounter then st.gteFrameLog else []) ++
      (if st.enabled = true then [state] else []) ∧
    (∀ (acquired : List Nat) (cpuPc : Nat) (node : Logged) (origin : Origin)
        (value length : Nat),
      (∀ e ∈ st.list, e.frame = st.frameCounter) →
      ((st.recordGteState state).addNodeInternal acquired cpuPc node origin value
        length).list.getLast?.map (fun e => e.gteState) = some (some state)) := by
  have hlist : (st.recordGteState state).list = st.list := by
    by_cases h1 : st.lastGteFrame = st.frameCounter <;>
      by_cases h2 : st.enabled = true <;>
      simp [GPULogger.recordGteState, h1, h2]
  have hframe : (st.recordGteState state).frameCounter = st.frameCounter := by
    by_cases h1 : st.lastGteFrame = st.frameCounter <;>
      by_cases h2 : st.enabled = true <;>
      simp [GPULogger.recordGteState, h1, h2]
  have hlast : (st.recordGteState state).lastGteState = some state := by
    by_cases h1 : st.lastGteFrame = st.frameCounter <;>
      by_cases h2 : st.enabled = true <;>
      simp [GPULogger.recordGteState, h1, h2]
  refine ⟨hlast, ?_, ?_⟩
  · by_cases h1 : st.lastGteFrame = st.frameCounter <;>
      by_cases h2 : st.enabled = true <;>
      simp [GPULogger.recordGteState, h1, h2]
  · intro acquired cpuPc node origin value length hcur
    have hcur' : ∀ e ∈ (st.recordGteState state).list,
        e.frame = (st.recordGteState state).frameCounter := by
      rw [hlist, hframe]
      exact hcur
    rw [addNodeInternal_no_evict _ acquired cpuPc node origin value length hcur']
    rw [show (({ st.recordGteState state with
          list := (st.recordGteState state).list ++
            [finalizeNode node origin value length cpuPc
              (st.recordGteState state).frameCounter
              (st.recordGteState state).lastGteState]
          : GPULogger }).list) = (st.recordGteState state).list ++
            [finalizeNode node origin value length cpuPc
              (st.recordGteState state).frameCounter
              (st.recordGteState state).lastGteState]
        from rfl, getLast?_append_singleton]
    simp [finalizeNode, hlast]

/-- Witness for C10: a logger whose single log entry is already on the
current frame; after `recordGteState` with logging disabled, the next added
command still carries the recorded snapshot. -/
theorem C10_recordGteState_witness :
    (noVramLogger.recordGteState gteSample).lastGteState = some gteSample ∧
    ((noVramLogger.recordGteState gteSample).addNodeInternal vramSample 7 nodeFresh
      Origin.DATAWRITE 9 1).list.getLast?.map (fun e => e.gteState) =
      some (some gteSample) := by
  have h := C10_recordGteState noVramLogger gteSample
  refine ⟨h.1, ?_⟩
  refine h.2.2 vramSample 7 nodeFresh Origin.DATAWRITE 9 1 ?_
  intro e he
  rw [List.mem_singleton.mp he]
  rfl

/-- Counterexample for C10 as stated: at frame 5 with a stale frame-4 entry
still in the log, `recordGteState` stores the snapshot, yet the command
logged right afterwards in the same frame carries no snapshot, because the
eviction-triggered reset clears it before the append. -/
theorem C10_counterexample :
    (staleLogger.recordGteState gteSample).lastGteState = some gteSample ∧
    ((staleLogger.recordGteState gteSample).addNodeInternal vramSample 7 nodeFresh
      Origin.DATAWRITE 9 1).list.getLast?.map (fun e => e.gteState) = some none ∧
    some (none : Option GTEState) ≠ some (some gteSample) := by
  refine ⟨rfl, rfl, by simp⟩

theorem escape_foldl_shift (l : List Char) (a : String) :
    l.foldl (fun e c => e ++ escapeChar c) a =
      a ++ l.foldl (fun e c => e ++ escapeChar c) "" := by
  induction l generalizing a with
  | nil => simp [String.append_empty]
  | cons c cs ih =>
    simp only [List.foldl_cons]
    rw [ih (a ++ escapeChar c), ih ("" ++ escapeChar c), String.empty_append,
      String.append_assoc]

/-- C8 (amended): `escapeJsonString` maps each input character independently
(it distributes over concatenation); it escapes the embedded double-quote,
backslash, newline, carriage-return and tab characters, and passes every
other character through unchanged — in particular the remaining control
characters below 0x20 are not escaped. -/
theorem C8_escapeJsonString :
    (∀ s t : String,
      escapeJsonString (s ++ t) = escapeJsonString s ++ escapeJsonString t) ∧
    (∀ c : Char, escapeJsonString (String.mk [c]) = escapeChar c) ∧
    escapeChar '"' = "\\\"" ∧ escapeChar '\\' = "\\\\" ∧
    escapeChar '\n' = "\\n" ∧ escapeChar '\r' = "\\r" ∧ escapeChar '\t' = "\\t" ∧
    (∀ c : Char, c ≠ '"' → c ≠ '\\' → c ≠ '\n' → c ≠ '\r' → c ≠ '\t' →
      escapeChar c = String.mk [c]) := by
  refine ⟨?_, ?_, rfl, rfl, rfl, rfl, rfl, ?_⟩
  · intro s t
    unfold escapeJsonString
    rw [String.data_append, List.foldl_append]
    exact escape_foldl_shift t.data _
  · intro c
    unfold escapeJsonString
    simp only [List.foldl_cons, List.foldl_nil]
    exact String.empty_append _
  · intro c h1 h2 h3 h4 h5
    unfold escapeChar
    simp [h1, h2, h3, h4, h5]

/-- Witness for C8: the bell character 0x07 is none of the five escaped
characters and passes through unchanged; distribution applied to a concrete
split. -/
theorem C8_escapeJsonString_witness :
    escapeChar (Char.ofNat 7) = String.mk [Char.ofNat 7] ∧
    escapeJsonString (("ab") ++ ("\n")) =
      escapeJsonString ("ab") ++ escapeJsonString ("\n") := by
  refine ⟨?_, C8_escapeJsonString.1 ("ab") ("\n")⟩
  exact C8_escapeJsonString.2.2.2.2.2.2.2 (Char.ofNat 7) (by decide) (by decide)
    (by decide) (by decide) (by decide)

/-- Counterexample for C8 as stated: the control character 0x01 lies below
0x20, is neither a quote nor a backslash, and yet passes through
`escapeJsonString` unchanged — so the escaper does not escape every control
character, and its output can fail to be a valid JSON string literal. -/
theorem C8_counterexample :
    (Char.ofNat 1).toNat < 0x20 ∧
    Char.ofNat 1 ≠ '"' ∧ Char.ofNat 1 ≠ '\\' ∧
    escapeJsonString (String.mk [Char.ofNat 1]) = String.mk [Char.ofNat 1] := by
  exact ⟨by decide, by decide, by decide, by decide⟩

theorem hexAux_congr : ∀ (f1 n f2 : Nat), n ≤ f1 → n ≤ f2 →
    hexDigitsRevAux n f1 = hexDigitsRevAux n f2 := by
  intro f1
  induction f1 with
  | zero =>
    intro n f2 h1 h2
    have hn : n = 0 := Nat.le_zero.mp h1
    subst hn
    cases f2 with
    | zero => rfl
    | succ f2 => rfl
  | succ f1 ih =>
    intro n f2 h1 h2
    cases n with
    | zero =>
      cases f2 with
      | zero => rfl
      | succ f2 => rfl
    | succ m =>
      cases f2 with
      | zero => omega
      | succ f2 =>
        show hexChar ((m + 1) % 16) :: hexDigitsRevAux ((m + 1) / 16) f1 =
          hexChar ((m + 1) % 16) :: hexDigitsRevAux ((m + 1) / 16) f2
        congr 1
        have hd : (m + 1) / 16 < m + 1 := Nat.div_lt_self (Nat.succ_pos m) (by omega)
        exact ih ((m + 1) / 16) f2 (by omega) (by omega)

theorem hexDigitsRev_succ (n : Nat) :
    hexDigitsRev (n + 1) = hexChar ((n + 1) % 16) :: hexDigitsRev ((n + 1) / 16) := by
  show hexChar ((n + 1) % 16) :: hexDigitsRevAux ((n + 1) / 16) n =
    hexChar ((n + 1) % 16) :: hexDigitsRevAux ((n + 1) / 16) ((n + 1) / 16)
  congr 1
  have hd : (n + 1) / 16 < n + 1 := Nat.div_lt_self (Nat.succ_pos n) (by omega)
  exact hexAux_congr n ((n + 1) / 16) ((n + 1) / 16) (by omega) (Nat.le_refl _)

theorem hexVal_hexChar : ∀ m : Nat, m < 16 → hexVal (hexChar m) = m := by decide

theorem isLowerHexDigit_hexChar : ∀ m : Nat, m < 16 → isLowerHexDigit (hexChar m) = true := by
  decide

theorem valueOf_hexDigitsRev (n : Nat) : valueOfRevDigits (hexDigitsRev n) = n := by
  induction n using Nat.strong_induction_on with
  | _ n ih =>
    cases n with
    | zero => rfl
    | succ m =>
      rw [hexDigitsRev_succ]
      show hexVal (hexChar ((m + 1) % 16)) + 16 * valueOfRevDigits (hexDigitsRev ((m + 1) / 16)) =
        m + 1
      rw [hexVal_hexChar _ (Nat.mod_lt _ (by omega))]
      rw [ih ((m + 1) / 16) (Nat.div_lt_self (Nat.succ_pos m) (by omega))]
      omega

theorem hexDigitsRev_lowerHex (n : Nat) : ∀ c ∈ hexDigitsRev n, isLowerHexDigit c = true := by
  induction n using Nat.strong_induction_on with
  | _ n ih =>
    cases n with
    | zero =>
      intro c hc
      exact absurd hc (List.not_mem_nil c)
    | succ m =>
      rw [hexDigitsRev_succ]
      intro c hc
      rcases List.mem_cons.mp hc with hc | hc
      · rw [hc]
        exact isLowerHexDigit_hexChar _ (Nat.mod_lt _ (by omega))
      · exact ih ((m + 1) / 16) (Nat.div_lt_self (Nat.succ_pos m) (by omega)) c hc

theorem hexDigitsRev_length_le : ∀ (k n : Nat), n < 16 ^ k → (hexDigitsRev n).length ≤ k := by
  intro k
  induction k with
  | zero =>
    intro n h
    rw [pow_zero] at h
    have hn : n = 0 := by omega
    subst hn
    exact Nat.le_refl _
  | succ k ih =>
    intro n h
    cases n with
    | zero => exact Nat.zero_le _
    | succ m =>
      rw [hexDigitsRev_succ]
      simp only [List.length_cons]
      have h' : (m + 1) / 16 < 16 ^ k := by
        apply Nat.div_lt_of_lt_mul
        rw [Nat.pow_succ] at h
        omega
      have := ih _ h'
      omega

theorem valueOf_append_zeros (l : List Char) (k : Nat) :
    valueOfRevDigits (l ++ List.replicate k ('0' : Char)) = valueOfRevDigits l := by
  induction l with
  | nil =>
    simp only [List.nil_append]
    induction k with
    | zero => rfl
    | succ k ihk =>
      show hexVal ('0' : Char) + 16 * valueOfRevDigits (List.replicate k ('0' : Char)) = 0
      rw [ihk]
      decide
  | cons c cs ih =>
    show hexVal c + 16 * valueOfRevDigits (cs ++ List.replicate k ('0' : Char)) =
      hexVal c + 16 * valueOfRevDigits cs
    rw [ih]

theorem hexStringVal_reverse (l : List Char) :
    hexStringVal l.reverse = valueOfRevDigits l := by
  induction l with
  | nil => rfl
  | cons c cs ih =>
    show hexStringVal ((c :: cs).reverse) = hexVal c + 16 * valueOfRevDigits cs
    rw [List.reverse_cons]
    unfold hexStringVal
    rw [List.foldl_append]
    show (cs.reverse.foldl (fun a c => a * 16 + hexVal c) 0) * 16 + hexVal c =
      hexVal c + 16 * valueOfRevDigits cs
    rw [show cs.reverse.foldl (fun a c => a * 16 + hexVal c) 0 = valueOfRevDigits cs from ih]
    omega

theorem hexPad_spec (w n : Nat) (h : n < 16 ^ w) :
    (hexPad w n).length = w ∧
    (hexPad w n).data.all isLowerHexDigit = true ∧
    hexStringVal (hexPad w n).data = n := by
  have hlen := hexDigitsRev_length_le w n h
  refine ⟨?_, ?_, ?_⟩
  · show (String.mk (hexDigitsRev n ++
        List.replicate (w - (hexDigitsRev n).length) ('0' : Char)).reverse).length = w
    rw [String.length_mk, List.length_reverse, List.length_append, List.length_replicate]
    omega
  · show ((hexDigitsRev n ++
        List.replicate (w - (hexDigitsRev n).length) ('0' : Char)).reverse).all
        isLowerHexDigit = true
    rw [List.all_eq_true]
    intro c hc
    rw [List.mem_reverse] at hc
    rcases List.mem_append.mp hc with hc | hc
    · exact hexDigitsRev_lowerHex n c hc
    · rw [List.eq_of_mem_replicate hc]
      decide
  · show hexStringVal (hexDigitsRev n ++
        List.replicate (w - (hexDigitsRev n).length) ('0' : Char)).reverse = n
    rw [hexStringVal_reverse, valueOf_append_zeros, valueOf_hexDigitsRev]

set_option maxRecDepth 8192 in
/-- C9: for every 32-bit color value, `colorToHex` renders `0x` followed by
exactly six lowercase hexadecimal digits whose value is the color modulo
2^24 (bits above 24 are dropped); booleans render as literal `true`/`false`;
and the spec's scenario FastFill (color 0x112233) serializes its JSON detail
block with the field `"color": "0x112233"`. -/
theorem C9_colorHexRendering :
    (∀ color : Nat, ∃ s : String,
      colorToHex color = "0x" ++ s ∧
      s.length = 6 ∧
      s.data.all isLowerHexDigit = true ∧
      hexStringVal s.data = color % 2 ^ 24) ∧
    boolString true = "true" ∧ boolString false = "false" ∧
    colorToHex 0x112233 = "0x112233" ∧
    colorToHex 0xAB112233 = "0x112233" ∧
    FastFill.writeJsonFields fillSample =
      ",\n      \"details\": \x7b\n        \"primitive\": \"fast_fill\",\n        \"color\": \"0x112233\",\n        \"rect\": \x7b\"x\": 10, \"y\": 20, \"w\": 5, \"h\": 5\x7d,\n        \"raw\": \x7b\"x\": 10, \"y\": 20, \"w\": 5, \"h\": 5\x7d,\n        \"clipped\": false\n      \x7d" := by
  refine ⟨?_, rfl, rfl, by decide, by decide, by decide⟩
  intro color
  have hmod : color % 2 ^ 24 < 16 ^ 6 := by
    have he : (2 : Nat) ^ 24 = 16 ^ 6 := by norm_num
    rw [← he]
    exact Nat.mod_lt _ (by norm_num)
  obtain ⟨h1, h2, h3⟩ := hexPad_spec 6 (color % 2 ^ 24) hmod
  exact ⟨hexPad 6 (color % 2 ^ 24), rfl, h1, h2, h3⟩

theorem writeStr_good (ok : Bool) (s : StreamState) (p : String) :
    (writeStr ok s p).good = (s.good && ok) := by
  cases hs : s.good <;> cases ok <;> simp [writeStr, hs]

theorem runWrites_good (oracle : Nat → Bool) :
    ∀ (ps : List String) (i : Nat) (s : StreamState),
      (runWrites oracle i s ps).good = true ↔
        (s.good = true ∧ ∀ j, j < ps.length → oracle (i + j) = true) := by
  intro ps
  induction ps with
  | nil =>
    intro i s
    simp [runWrites]
  | cons p rest ih =>
    intro i s
    show (runWrites oracle (i + 1) (writeStr (oracle i) s p) rest).good = true ↔ _
    rw [ih]
    constructor
    · rintro ⟨hg, hrest⟩
      rw [writeStr_good, Bool.and_eq_true] at hg
      refine ⟨hg.1, ?_⟩
      intro j hj
      cases j with
      | zero => simpa using hg.2
      | succ j' =>
        have hlt : j' < rest.length := by simpa using hj
        have := hrest j' hlt
        rw [show i + (j' + 1) = i + 1 + j' by omega]
        exact this
    · rintro ⟨hsg, hall⟩
      refine ⟨?_, ?_⟩
      · rw [writeStr_good, hsg]
        simpa using hall 0 (by simp)
      · intro j hj
        rw [show i + 1 + j = i + (j + 1) by omega]
        exact hall (j + 1) (by simpa using Nat.succ_lt_succ hj)

theorem runWrites_written (oracle : Nat → Bool) :
    ∀ (ps : List String) (i : Nat) (s : StreamState),
      (∀ j, j < ps.length → oracle (i + j) = true) → s.good = true →
      (runWrites oracle i s ps).written = s.written ++ ps := by
  intro ps
  induction ps with
  | nil =>
    intro i s _ _
    simp [runWrites]
  | cons p rest ih =>
    intro i s hall hg
    show (runWrites oracle (i + 1) (writeStr (oracle i) s p) rest).written =
      s.written ++ (p :: rest)
    have hoi : oracle i = true := by simpa using hall 0 (by simp)
    have hw : writeStr (oracle i) s p = { s with written := s.written ++ [p] } := by
      unfold writeStr
      rw [hoi, hg]
      simp
    have hnext : ∀ j, j < rest.length → oracle (i + 1 + j) = true := by
      intro j hj
      rw [show i + 1 + j = i + (j + 1) by omega]
      exact hall (j + 1) (by simpa using Nat.succ_lt_succ hj)
    rw [hw, ih (i + 1) { good := s.good, written := s.written ++ [p] } hnext hg]
    simp

/-- C6: the structured-text export returns failure and writes nothing when
the destination cannot be opened; it returns success exactly when the file
opened and every stream write succeeded (a single failed write poisons the
stream and the final good-bit check reports it); and on success the written
output is the complete document. -/
theorem C6_saveFrameLog (l : GPULogger) (canOpen : Bool) (oracle : Nat → Bool) :
    (canOpen = false → l.saveFrameLog canOpen oracle = (false, [])) ∧
    ((l.saveFrameLog canOpen oracle).1 = true ↔
      canOpen = true ∧ ∀ i, i < (framePieces l).length → oracle i = true) ∧
    ((l.saveFrameLog canOpen oracle).1 = true →
      (l.saveFrameLog canOpen oracle).2 = framePieces l) := by
  cases canOpen with
  | false =>
    refine ⟨fun _ => rfl, ?_, ?_⟩
    · show (false : Bool) = true ↔ _
      simp
    · intro h
      exact absurd h (by simp [GPULogger.saveFrameLog])
  | true =>
    have hrun := runWrites_good oracle (framePieces l) 0 ⟨true, []⟩
    refine ⟨fun h => absurd h (by simp), ?_, ?_⟩
    · show (runWrites oracle 0 ⟨true, []⟩ (framePieces l)).good = true ↔ _
      rw [hrun]
      simp
    · intro hgood
      show (runWrites oracle 0 ⟨true, []⟩ (framePieces l)).written = framePieces l
      have h2 :=
        ((hrun.mp (by simpa [GPULogger.saveFrameLog] using hgood)).2 : ∀ j, _)
      have hres := runWrites_written oracle (framePieces l) 0 ⟨true, []⟩
        (fun j hj => h2 j hj) rfl
      simpa using hres

/-- Witness for C6: a concrete logger exported with an unopenable
destination fails and writes nothing; with an open destination and all
writes succeeding it reports success and writes the whole document. -/
theorem C6_saveFrameLog_witness :
    noVramLogger.saveFrameLog false (fun _ => true) = (false, []) ∧
    (noVramLogger.saveFrameLog true (fun _ => true)).1 = true ∧
    (noVramLogger.saveFrameLog true (fun _ => true)).2 = framePieces noVramLogger := by
  have h1 := (C6_saveFrameLog noVramLogger false (fun _ => true)).1 rfl
  have h2 := (C6_saveFrameLog noVramLogger true (fun _ => true)).2.1.mpr
    ⟨rfl, fun i _ => rfl⟩
  have h3 := (C6_saveFrameLog noVramLogger true (fun _ => true)).2.2 h2
  exact ⟨h1, h2, h3⟩
